import Mathlib

/-
  Shallow embedding of the TaskManager backend (Express/Mongoose REST API).

  Sources embedded here:
  - backend/models/User.js            (user schema, toJSON)
  - backend/models/Session.js         (session rows)
  - backend/models/Notification.js    (notification rows)
  - backend/middleware/auth.js        (authenticate)
  - backend/middleware/validation.js  (handleValidationErrors)
  - backend/controllers/authController.js
      (login, logout, resendVerificationEmail; the variant with
       admin-created-account support, which is the one wired to the
       frontend set-password flow and to the User model's isAdminCreated
       and requiresPasswordSetup fields)
  - backend/controllers/taskController.js (getTasks, updateTask)
  - backend/controllers/notificationController.js (markAllAsRead)
  - backend/services/reminderService.js
      (createNotification, sendReminder, checkUpcomingTasks)

  Modelling conventions:
  - Timestamps are integer milliseconds since the epoch (Int), exactly the
    arithmetic JavaScript Date getTime() performs.  All the hour-threshold
    comparisons of the reminder service are stated on millisecond deltas,
    which is an exact rescaling of the source's floating-point
    hoursUntilDue = deltaMs / 3600000 comparisons against integer hour
    thresholds.
  - MongoDB collections are Lean lists; findOne/findById is List.find?,
    deleteOne is List.eraseP (first match), updateMany/deleteMany are map
    and filter, and saving a found document back is updateFirst below.
  - crypto is abstracted: jwt.verify is a parameter of type
    String -> JwtCheck, jwt.sign and bcrypt.compare are parameters; random
    token generation is a parameter (the fresh token string).
  - Free-text notification message bodies and e-mail contents are not
    modelled; no claim mentions them.
-/

namespace TaskManager

/-- Task status enumeration from the Task schema. -/
inductive Status where
  | pending
  | inProgress
  | completed
  | cancelled
deriving DecidableEq, Repr

/-- Task/notification priority enumeration. -/
inductive Priority where
  | low
  | medium
  | high
deriving DecidableEq, Repr

/-- User roles from the User schema. -/
inductive Role where
  | admin
  | manager
  | user
deriving DecidableEq, Repr

/-- Notification type enumeration from the Notification schema. -/
inductive NotifType where
  | taskReminder
  | taskAssigned
  | taskUpdated
  | taskCompleted
  | system
deriving DecidableEq, Repr

/-- JSON-like values, used to state the shape of HTTP response bodies. -/
inductive JVal where
  | jnull
  | jbool (b : Bool)
  | jnum (n : Int)
  | jstr (s : String)
  | jarr (xs : List JVal)
  | jobj (fields : List (String × JVal))

/-- An HTTP response: status code plus JSON body. -/
structure Response where
  status : Nat
  body : JVal

/-- True when the response body is a JSON object whose `error` field is a
string, the stable error shape the spec describes. -/
def Response.hasErrorString (r : Response) : Bool :=
  match r.body with
  | .jobj fields =>
    match fields.lookup "error" with
    | some (.jstr _) => true
    | _ => false
  | _ => false

/-- A user document (User schema). `password` holds the bcrypt hash. -/
structure UserDoc where
  id : String
  username : String
  email : String
  password : String
  isAdminCreated : Bool
  requiresPasswordSetup : Bool
  role : Role
  isEmailVerified : Bool
  emailVerificationToken : Option String
  emailVerificationExpires : Option Int
  createdAt : Int
  updatedAt : Int
deriving DecidableEq, Repr

/-- A session row (Session schema): owning user, opaque token, expiry. -/
structure Session where
  userId : String
  token : String
  expiresAt : Int
deriving DecidableEq, Repr

/-- A task document (Task schema). -/
structure Task where
  id : String
  title : String
  description : Option String
  assignedTo : Option String
  status : Status
  priority : Priority
  dueDate : Int
  createdBy : String
  createdAt : Int
  updatedAt : Int
deriving DecidableEq, Repr

/-- A notification row (Notification schema).  `hoursUntilDueTenths` holds
the persisted `Math.round(hoursUntilDue * 10)` numerator of the rounded
one-decimal hoursUntilDue value. -/
structure Notif where
  userId : String
  taskId : Option String
  ntype : NotifType
  title : String
  priority : Priority
  isRead : Bool
  readAt : Option Int
  dueDate : Option Int
  hoursUntilDueTenths : Option Int
  createdAt : Int
deriving DecidableEq, Repr

/-- The identity `authenticate` attaches to a request (`req.user`). -/
structure Identity where
  id : String
  username : String
  email : String
  role : Role
deriving DecidableEq, Repr

/-- The whole persistent state: the four MongoDB collections. -/
structure Db where
  users : List UserDoc
  sessions : List Session
  tasks : List Task
  notifications : List Notif
deriving DecidableEq, Repr

/-- Replace the first element satisfying `p` by `x` (the effect of
finding a Mongoose document and saving a modified copy back). -/
def updateFirst {α : Type} (p : α → Bool) (x : α) : List α → List α
  | [] => []
  | a :: as => if p a then x :: as else a :: updateFirst p x as

/-- JavaScript String.prototype.trim, defined on the character list so it
computes by kernel reduction. -/
def jsTrim (s : String) : String :=
  ⟨((s.data.dropWhile Char.isWhitespace).reverse.dropWhile Char.isWhitespace).reverse⟩

/-- String startsWith, defined on the character list. -/
def strStartsWith (s p : String) : Bool :=
  s.data.take p.data.length == p.data

/-- String drop, defined on the character list. -/
def strDrop (s : String) (n : Nat) : String :=
  ⟨s.data.drop n⟩

/-- The string the `role` enum field serializes to. -/
def roleName : Role → String
  | .admin => "admin"
  | .manager => "manager"
  | .user => "user"

/-- The string the `status` enum field serializes to. -/
def statusName : Status → String
  | .pending => "pending"
  | .inProgress => "in-progress"
  | .completed => "completed"
  | .cancelled => "cancelled"

/-- Outcome of `jwt.verify(token, secret)`: a decoded payload, a
`JsonWebTokenError`, or a `TokenExpiredError`. -/
inductive JwtCheck where
  | ok (userId : String) (role : Role)
  | malformed
  | expired
deriving DecidableEq, Repr

/-- backend/middleware/auth.js `authenticate`.  Reads the Authorization
header, verifies the JWT, requires a session row with that exact token and
`expiresAt` strictly in the future, then resolves the user.  It only reads
the database (its type returns no new `Db`: the source performs no writes). -/
def authenticate (verify : String → JwtCheck) (now : Int) (db : Db)
    (authHeader : Option String) : Except Response Identity :=
  match authHeader with
  | none => .error ⟨401, .jobj [("error", .jstr "No token provided")]⟩
  | some h =>
    if strStartsWith h "Bearer " then
      let token := strDrop h 7
      match verify token with
      | .malformed => .error ⟨401, .jobj [("error", .jstr "Invalid token")]⟩
      | .expired => .error ⟨401, .jobj [("error", .jstr "Token expired")]⟩
      | .ok uid _ =>
        match db.sessions.find? (fun s => s.token == token && now < s.expiresAt) with
        | none => .error ⟨401, .jobj [("error", .jstr "Invalid or expired session")]⟩
        | some _ =>
          match db.users.find? (fun u => u.id == uid) with
          | none => .error ⟨401, .jobj [("error", .jstr "User not found")]⟩
          | some u => .ok ⟨u.id, u.username, u.email, u.role⟩
    else .error ⟨401, .jobj [("error", .jstr "No token provided")]⟩

/-- The login error message for unverified accounts. -/
def emailNotVerifiedMsg : String :=
  "Email not verified. Please check your email and verify your account before logging in."

/-- authController.js `login`.  `mint` abstracts `jwt.sign`, `bcryptEq`
abstracts `bcrypt.compare` (candidate password against stored hash), and
`expiresInMs` is the parsed `config.jwtExpiresIn` duration. -/
def login (mint : String → Role → String) (bcryptEq : String → String → Bool)
    (expiresInMs : Int) (now : Int) (db : Db) (uname pwd : String) :
    Response × Db :=
  match db.users.find? (fun u => u.username == uname) with
  | none => (⟨401, .jobj [("error", .jstr "Invalid credentials")]⟩, db)
  | some u =>
    if bcryptEq pwd u.password then
      if !u.isEmailVerified && !u.isAdminCreated then
        (⟨403, .jobj [("error", .jstr emailNotVerifiedMsg),
                      ("requiresVerification", .jbool true)]⟩, db)
      else
        let token := mint u.id u.role
        let sess : Session := ⟨u.id, token, now + expiresInMs⟩
        (⟨200, .jobj [("message", .jstr "Login successful"),
                      ("token", .jstr token),
                      ("user", .jobj [("id", .jstr u.id),
                                      ("username", .jstr u.username),
                                      ("email", .jstr u.email),
                                      ("role", .jstr (roleName u.role))])]⟩,
         { db with sessions := db.sessions ++ [sess] })
    else (⟨401, .jobj [("error", .jstr "Invalid credentials")]⟩, db)

/-- authController.js `logout`: `Session.deleteOne({ token })` deletes the
first (by the unique index: the only) session row with that token; deleting
nothing is not an error. -/
def logout (db : Db) (token : String) : Response × Db :=
  (⟨200, .jobj [("message", .jstr "Logout successful")]⟩,
   { db with sessions := db.sessions.eraseP (fun s => s.token == token) })

/-- The anti-enumeration message for the no-such-user branch of
resendVerificationEmail. -/
def resendGenericMsg : String :=
  "If an account exists with this email, a verification email has been sent."

/-- authController.js `resendVerificationEmail`.  `freshToken` abstracts
`crypto.randomBytes(32).toString(hex)`; `tokenExpirationHours` is
`config.emailVerification.tokenExpirationHours`; `sendOk` is the awaited
outcome of `sendVerificationEmail`. -/
def resendVerificationEmail (freshToken : String) (tokenExpirationHours : Int)
    (sendOk : Bool) (now : Int) (db : Db) (email : Option String) :
    Response × Db :=
  match email with
  | none => (⟨400, .jobj [("error", .jstr "Email is required")]⟩, db)
  | some e =>
    if e = "" then (⟨400, .jobj [("error", .jstr "Email is required")]⟩, db)
    else
      match db.users.find? (fun u => u.email == e) with
      | none => (⟨200, .jobj [("message", .jstr resendGenericMsg)]⟩, db)
      | some u =>
        if u.isEmailVerified then
          (⟨400, .jobj [("error", .jstr "Email is already verified")]⟩, db)
        else
          let u' := { u with
            emailVerificationToken := some freshToken,
            emailVerificationExpires := some (now + tokenExpirationHours * 3600000) }
          let db' := { db with users := updateFirst (fun v => v.email == e) u' db.users }
          if sendOk then
            (⟨200, .jobj [("message",
              .jstr "Verification email sent successfully. Please check your email.")]⟩, db')
          else
            (⟨500, .jobj [("error",
              .jstr "Failed to send verification email. Please try again later.")]⟩, db')

/-- JSON serialization of an optional string field (null when absent). -/
def optStr : Option String → JVal
  | none => .jnull
  | some s => .jstr s

/-- JSON serialization of an optional numeric field (null when absent). -/
def optNum : Option Int → JVal
  | none => .jnull
  | some n => .jnum n

/-- Mongoose `toObject()` on a User document: every schema field, raw. -/
def userToObject (u : UserDoc) : List (String × JVal) :=
  [("_id", .jstr u.id),
   ("username", .jstr u.username),
   ("email", .jstr u.email),
   ("password", .jstr u.password),
   ("isAdminCreated", .jbool u.isAdminCreated),
   ("requiresPasswordSetup", .jbool u.requiresPasswordSetup),
   ("role", .jstr (roleName u.role)),
   ("isEmailVerified", .jbool u.isEmailVerified),
   ("emailVerificationToken", optStr u.emailVerificationToken),
   ("emailVerificationExpires", optNum u.emailVerificationExpires),
   ("createdAt", .jnum u.createdAt),
   ("updatedAt", .jnum u.updatedAt)]

/-- JavaScript `delete obj.key` on a plain object rendered as a field list. -/
def deleteKey (k : String) (fields : List (String × JVal)) : List (String × JVal) :=
  fields.filter (fun kv => kv.1 ≠ k)

/-- User model `toJSON`: toObject, then delete password,
emailVerificationToken and emailVerificationExpires. -/
def userToJSON (u : UserDoc) : List (String × JVal) :=
  deleteKey "emailVerificationExpires"
    (deleteKey "emailVerificationToken" (deleteKey "password" (userToObject u)))

/-- One entry of `errors.array()` from express-validator: a field issue with
its path and message. -/
def validationIssueToJson (path msg : String) : JVal :=
  .jobj [("type", .jstr "field"), ("msg", .jstr msg),
         ("path", .jstr path), ("location", .jstr "body")]

/-- backend/middleware/validation.js `handleValidationErrors`: when the
rule list produced any issues, respond 400 with `errors: [...]`; otherwise
fall through to the controller (`none`). -/
def handleValidationErrors (issues : List (String × String)) : Option Response :=
  if issues.isEmpty then none
  else some ⟨400, .jobj [("errors",
    .jarr (issues.map (fun i => validationIssueToJson i.1 i.2)))]⟩

/-- The optional filters and pagination query of GET /api/tasks, after
`parseInt`: `none` models an absent or unparsable query value (JS
`parseInt(x) || default` also maps a parsed 0 to the default, so 0 is
normalized to `none` here). -/
structure TaskFilters where
  status : Option Status
  priority : Option Priority
  assignedTo : Option String
  page : Option Nat
  limit : Option Nat
deriving Repr

/-- The MongoDB query object `getTasks` builds: conjunctive constraints,
each optional.  `createdByOrAssigned` is the manager-role `$or` clause. -/
structure TaskQuery where
  assignedToEq : Option String
  createdByOrAssigned : Option String
  statusEq : Option Status
  priorityEq : Option Priority
deriving DecidableEq, Repr

/-- taskController.js `getTasks`, query-building phase: role filter first,
then status/priority, then — overwriting `query.assignedTo` — the
caller-supplied assignedTo filter when it is a non-blank string. -/
def buildTaskQuery (ident : Identity) (f : TaskFilters) : TaskQuery :=
  let q0 : TaskQuery := ⟨none, none, none, none⟩
  let q1 :=
    match ident.role with
    | .user => { q0 with assignedToEq := some ident.id }
    | .manager => { q0 with createdByOrAssigned := some ident.id }
    | .admin => q0
  let q2 := match f.status with
    | some s => { q1 with statusEq := some s }
    | none => q1
  let q3 := match f.priority with
    | some p => { q2 with priorityEq := some p }
    | none => q2
  match f.assignedTo with
  | some a => if a ≠ "" ∧ jsTrim a ≠ "" then { q3 with assignedToEq := some a } else q3
  | none => q3

/-- Whether a task matches the conjunctive MongoDB query. -/
def taskMatches (q : TaskQuery) (t : Task) : Bool :=
  (match q.assignedToEq with
   | none => true
   | some a => t.assignedTo == some a) &&
  (match q.createdByOrAssigned with
   | none => true
   | some uid => t.createdBy == uid || t.assignedTo == some uid) &&
  (match q.statusEq with
   | none => true
   | some s => t.status == s) &&
  (match q.priorityEq with
   | none => true
   | some p => t.priority == p)

/-- The `.sort(dueDate: 1, createdAt: -1)` order: ascending due date,
descending creation time; a stable sort, as MongoDB's. -/
def sortTasks (l : List Task) : List Task :=
  l.insertionSort (fun t1 t2 =>
    t1.dueDate < t2.dueDate ∨ (t1.dueDate = t2.dueDate ∧ t2.createdAt ≤ t1.createdAt))

/-- The value getTasks responds with: the page of tasks plus pagination. -/
structure TasksResult where
  tasks : List Task
  page : Nat
  limit : Nat
  total : Nat
  pages : Nat
deriving DecidableEq, Repr

/-- taskController.js `getTasks`: pagination defaults (limit clamped to
100), role-based query, optional filters, count, sort, skip/limit. -/
def getTasks (ident : Identity) (f : TaskFilters) (db : Db) : TasksResult :=
  let pageNum := f.page.getD 1
  let limitNum := min (f.limit.getD 10) 100
  let skip := (pageNum - 1) * limitNum
  let q := buildTaskQuery ident f
  let matched := db.tasks.filter (taskMatches q)
  let total := matched.length
  let tasks := ((sortTasks matched).drop skip).take limitNum
  ⟨tasks, pageNum, limitNum, total, (total + limitNum - 1) / limitNum⟩

/-- A JSON field value of an updateTask request body. -/
inductive FieldVal where
  | vstr (s : String)
  | vstatus (s : Status)
  | vpriority (p : Priority)
  | vdate (ms : Int)
  | vnull
deriving DecidableEq, Repr

/-- An updateTask request body: its keys in order with their values. -/
abbrev Patch := List (String × FieldVal)

/-- The dynamic `existingTask[key] = updates[key]` assignment: schema keys
update their field (an empty-string or null assignedTo unassigns, per the
controller's normalization); a non-schema key is dropped when the document
is saved. -/
def applyField (t : Task) (k : String) (v : FieldVal) : Task :=
  if k = "title" then
    match v with
    | .vstr s => { t with title := s }
    | _ => t
  else if k = "description" then
    match v with
    | .vstr s => { t with description := some s }
    | .vnull => { t with description := none }
    | _ => t
  else if k = "assignedTo" then
    match v with
    | .vstr s => if s = "" then { t with assignedTo := none } else { t with assignedTo := some s }
    | .vnull => { t with assignedTo := none }
    | _ => t
  else if k = "status" then
    match v with
    | .vstatus s => { t with status := s }
    | _ => t
  else if k = "priority" then
    match v with
    | .vpriority p => { t with priority := p }
    | _ => t
  else if k = "dueDate" then
    match v with
    | .vdate d => { t with dueDate := d }
    | _ => t
  else t

/-- Outcome of updateTask, paired with the (possibly updated) database. -/
inductive UpdateOutcome where
  | notFound
  | forbidden (msg : String)
  | badRequest (msg : String)
  | ok (t : Task)
deriving DecidableEq, Repr

/-- Whether an updateTask outcome is the 403 Forbidden response. -/
def UpdateOutcome.isForbidden : UpdateOutcome → Bool
  | .forbidden _ => true
  | _ => false

/-- The patch value at `assignedTo` when it is a non-empty string id
(the only case in which the controller validates the referenced user). -/
def patchNewAssignee (patch : Patch) : Option String :=
  match patch.lookup "assignedTo" with
  | some (.vstr s) => if s = "" then none else some s
  | _ => none

/-- The task produced by `updateTask`'s field loop: each provided key
assigned in order, then `updatedAt` stamped. -/
def appliedPatch (t : Task) (patch : Patch) (now : Int) : Task :=
  { patch.foldl (fun a kv => applyField a kv.1 kv.2) t with updatedAt := now }

/-- taskController.js `updateTask`, the persisted-state fragment: find the
task, run the role checks (`user` must be the assignee and may only carry
the `status` key; `manager` must be creator or assignee), validate a newly
assigned user exists, apply the patched fields, stamp updatedAt, save.
The task_assigned/task_updated notification side effects are not modelled
here (no claim depends on them). -/
def updateTask (ident : Identity) (tid : String) (patch : Patch) (now : Int)
    (db : Db) : UpdateOutcome × Db :=
  match db.tasks.find? (fun t => t.id == tid) with
  | none => (.notFound, db)
  | some existingTask =>
    let roleGate : Option String :=
      match ident.role with
      | .user =>
        if existingTask.assignedTo ≠ some ident.id then
          some "You can only update tasks assigned to you"
        else
          let updateFields := patch.map Prod.fst
          let invalidFields := updateFields.filter (fun k => k ∉ ["status"])
          if invalidFields ≠ [] then
            some ("Users can only update status. Invalid fields: " ++
                  String.intercalate ", " invalidFields)
          else none
      | .manager =>
        if existingTask.createdBy ≠ ident.id ∧ existingTask.assignedTo ≠ some ident.id then
          some "You can only update tasks you created or are assigned to"
        else none
      | .admin => none
    match roleGate with
    | some msg => (.forbidden msg, db)
    | none =>
      let assigneeOk : Bool :=
        match patchNewAssignee patch with
        | some s => (db.users.find? (fun u => u.id == s)).isSome
        | none => true
      if assigneeOk then
        let t'' := appliedPatch existingTask patch now
        (.ok t'', { db with tasks := updateFirst (fun t => t.id == tid) t'' db.tasks })
      else (.badRequest "Assigned user not found", db)

/-- The JSON body of the markAllAsRead success response. -/
structure MarkAllResult where
  message : String
  updatedCount : Nat
deriving DecidableEq, Repr

/-- notificationController.js `markAllAsRead`:
`updateMany(userId, isRead: false -> isRead: true, readAt: now)`;
`updatedCount` is the update's modifiedCount. -/
def markAllAsRead (uid : String) (now : Int) (db : Db) : MarkAllResult × Db :=
  let modified := (db.notifications.filter
    (fun n => n.userId == uid && n.isRead == false)).length
  let notifs := db.notifications.map (fun n =>
    if n.userId == uid && n.isRead == false then
      { n with isRead := true, readAt := some now }
    else n)
  (⟨"All notifications marked as read", modified⟩,
   { db with notifications := notifs })

/-- reminderService.js `createNotification` priority escalation, stated on
the millisecond delta to the due date:  hoursUntilDue < 1 and < 24 map to
high, < 48 to medium, otherwise low. -/
def reminderPriority (msUntilDue : Int) : Priority :=
  if msUntilDue < 3600000 then .high
  else if msUntilDue < 24 * 3600000 then .high
  else if msUntilDue < 48 * 3600000 then .medium
  else .low

/-- reminderService.js `createNotification`: the persisted task_reminder
notification row.  `hoursUntilDueTenths` is `Math.round(hoursUntilDue*10)`
(round-half-up on the exact rational, as floor((2*delta/360000 + 1)/2)). -/
def mkReminderNotif (t : Task) (uid : String) (now : Int) : Notif :=
  { userId := uid,
    taskId := some t.id,
    ntype := .taskReminder,
    title := "Task Reminder: " ++ t.title,
    priority := reminderPriority (t.dueDate - now),
    isRead := false,
    readAt := none,
    dueDate := some t.dueDate,
    hoursUntilDueTenths := some ((2 * (t.dueDate - now) + 360000).fdiv 720000),
    createdAt := now }

/-- The scheduler's duplicate check: a task_reminder notification for this
task and assignee created within the last 2 hours. -/
def dedupHit (notifs : List Notif) (taskId uid : String) (now : Int) : Bool :=
  notifs.any (fun n =>
    n.taskId == some taskId && n.userId == uid &&
    n.ntype == NotifType.taskReminder && now - 2 * 3600000 ≤ n.createdAt)

/-- The source's qualification window at one threshold:
`hoursUntilDue <= threshold && hoursUntilDue > threshold - 1`, stated
exactly on the millisecond delta. -/
def thresholdWindow (now : Int) (t : Task) (threshold : Nat) : Prop :=
  t.dueDate - now ≤ (threshold : Int) * 3600000 ∧
  ((threshold : Int) - 1) * 3600000 < t.dueDate - now

instance (now : Int) (t : Task) (threshold : Nat) :
    Decidable (thresholdWindow now t threshold) := by
  unfold thresholdWindow
  infer_instance

/-- One threshold check of `checkUpcomingTasks` for one task: fire when
`threshold - 1 < hoursUntilDue <= threshold` (in milliseconds: exactly the
source's floating-point comparison) and the dedup query finds nothing. -/
def tickTaskThreshold (now : Int) (t : Task) (uid : String)
    (acc : List Notif) (threshold : Nat) : List Notif :=
  if thresholdWindow now t threshold then
    if dedupHit acc t.id uid now then acc
    else acc ++ [mkReminderNotif t uid now]
  else acc

/-- All thresholds checked for one upcoming task (its assignee is known to
be non-null from the query). -/
def tickTask (thresholds : List Nat) (now : Int) (acc : List Notif)
    (t : Task) : List Notif :=
  match t.assignedTo with
  | none => acc
  | some uid => thresholds.foldl (tickTaskThreshold now t uid) acc

/-- The query filter of `checkUpcomingTasks`: due strictly in the future,
within the maximum threshold, not completed/cancelled, assigned. -/
def upcomingQuery (maxThresholdMs : Int) (now : Int) (t : Task) : Bool :=
  now < t.dueDate && t.dueDate ≤ now + maxThresholdMs &&
  !(t.status == Status.completed || t.status == Status.cancelled) &&
  t.assignedTo ≠ none

/-- reminderService.js `checkUpcomingTasks`, one scheduler tick: query the
upcoming assigned tasks sorted by due date, per task and per configured
threshold emit a reminder unless the 2-hour dedup query hits, then sweep
read notifications older than 30 days. -/
def checkUpcomingTasks (thresholds : List Nat) (now : Int) (db : Db) : Db :=
  let maxThreshold := thresholds.foldl max 0
  let upcoming := (db.tasks.filter
      (upcomingQuery ((maxThreshold : Int) * 3600000) now)).insertionSort
    (fun t1 t2 => t1.dueDate ≤ t2.dueDate)
  let notifs := upcoming.foldl (tickTask thresholds now) db.notifications
  let notifs := notifs.filter (fun n =>
    !(n.isRead && n.createdAt < now - 30 * 24 * 3600000))
  { db with notifications := notifs }

/-- The number of persisted task_reminder notifications for a given task
and recipient. -/
def countReminders (l : List Notif) (taskId uid : String) : Nat :=
  (l.filter (fun n =>
    n.ntype == NotifType.taskReminder && n.taskId == some taskId &&
    n.userId == uid)).length

/-- The number of task_reminder notifications for a task created exactly at
a given instant (used to count what one tick at that instant emitted). -/
def countRemindersAt (l : List Notif) (taskId : String) (time : Int) : Nat :=
  (l.filter (fun n =>
    n.ntype == NotifType.taskReminder && n.taskId == some taskId &&
    n.createdAt == time)).length

/-- Modelled from the spec: the three-branch priority rule stated in the
spec for reminder notifications — high when hoursUntilDue < 24, medium when
24 <= hoursUntilDue < 48, low otherwise — on the millisecond delta.  Kept
separate from `reminderPriority` (translated from the source) so the two
can be compared. -/
def specReminderPriority (msUntilDue : Int) : Priority :=
  if msUntilDue < 24 * 3600000 then .high
  else if msUntilDue < 48 * 3600000 then .medium
  else .low

/-- The emission condition the spec states for one tick on one task: some
configured threshold's one-hour window contains the time left, and the
2-hour dedup query finds nothing. -/
def specEmits (thresholds : List Nat) (now : Int) (t : Task) (uid : String)
    (notifs : List Notif) : Prop :=
  (∃ tr ∈ thresholds, thresholdWindow now t tr) ∧
  dedupHit notifs t.id uid now = false

instance (thresholds : List Nat) (now : Int) (t : Task) (uid : String)
    (notifs : List Notif) : Decidable (specEmits thresholds now t uid notifs) := by
  unfold specEmits
  infer_instance

/-! Concrete fixture data, used by the closed counterexample and witness
theorems below. -/

/-- A verified regular user. -/
def aliceUser : UserDoc :=
  ⟨"u1", "alice", "alice@example.com", "hashA", false, false, .user, true,
   none, none, 0, 0⟩

/-- A second verified regular user. -/
def bobUser : UserDoc :=
  ⟨"u2", "bob", "bob@example.com", "hashB", false, false, .user, true,
   none, none, 0, 0⟩

/-- A self-registered user who has not verified their email. -/
def carolUnverified : UserDoc :=
  ⟨"u3", "carol", "carol@example.com", "hashC", false, false, .user, false,
   some "oldTok", some 1000, 0, 0⟩

/-- An admin-created (admin-provisioned) user who has not verified. -/
def davidAdminCreated : UserDoc :=
  ⟨"u4", "david", "david@example.com", "hashD", true, false, .manager, false,
   some "tok4", some 99999999, 0, 0⟩

/-- The request identity of aliceUser. -/
def aliceIdent : Identity := ⟨"u1", "alice", "alice@example.com", .user⟩

/-- A task assigned to bob. -/
def taskForBob : Task :=
  ⟨"t1", "Write report", none, some "u2", .pending, .medium, 7200000, "m1",
   100, 100⟩

/-- A task assigned to alice. -/
def taskForAlice : Task :=
  ⟨"t2", "Review code", none, some "u1", .pending, .high, 7200000, "m1",
   200, 200⟩

/-- A task assigned to bob due at 23.5 hours (84600000 ms) past epoch. -/
def taskDue23h30 : Task :=
  ⟨"t5", "Ship release", none, some "u2", .inProgress, .high, 84600000, "m1",
   0, 0⟩

/-- Fixture database for the getTasks role-filter scenario. -/
def c1Db : Db := ⟨[aliceUser, bobUser], [], [taskForBob, taskForAlice], []⟩

/-- The getTasks query alice (role user) sends: assignedTo=u2, no others. -/
def c1Filters : TaskFilters := ⟨none, none, some "u2", none, none⟩

/-- Fixture database with no account for bob's email. -/
def c2DbAbsent : Db := ⟨[aliceUser], [], [], []⟩

/-- Fixture database where bob's email belongs to a verified account. -/
def c2DbVerified : Db := ⟨[bobUser], [], [], []⟩

/-- Fixture database holding only the unverified carol. -/
def c2DbUnverified : Db := ⟨[carolUnverified], [], [], []⟩

/-- A jwt.verify stub accepting exactly the token tokA for user u1. -/
def jwtFix : String → JwtCheck :=
  fun t => if t = "tokA" then .ok "u1" .user else .malformed

/-- Fixture database with alice's live session for token tokA. -/
def c3Db : Db := ⟨[aliceUser], [⟨"u1", "tokA", 1000⟩], [], []⟩

/-- Fixture database for the updateTask role scenario. -/
def c4Db : Db := ⟨[aliceUser, bobUser], [], [taskForAlice], []⟩

/-- A patch touching only status. -/
def statusOnlyPatch : Patch := [("status", .vstatus .completed)]

/-- A patch touching title as well as status. -/
def titleAndStatusPatch : Patch :=
  [("title", .vstr "New title"), ("status", .vstatus .completed)]

/-- Fixture database for the scheduler scenario: one assigned task. -/
def c5Db : Db := ⟨[bobUser], [], [taskDue23h30], []⟩

/-- A jwt.sign stub. -/
def mintFix : String → Role → String := fun uid _ => uid ++ "-tok"

/-- A bcrypt.compare stub accepting carol's and david's passwords. -/
def bcryptFix : String → String → Bool :=
  fun p h => (p == "pwC" && h == "hashC") || (p == "pwD" && h == "hashD")

/-- Fixture database with the unverified carol and the admin-created david. -/
def c7Db : Db := ⟨[carolUnverified, davidAdminCreated], [], [], []⟩

/-- A notification already read by u1. -/
def readNotif : Notif :=
  ⟨"u1", none, .system, "Hello", .low, true, some 10, none, none, 5⟩

/-- Fixture database for the idempotence scenario: one session, one read
notification. -/
def c9Db : Db := ⟨[aliceUser], [⟨"u1", "tokA", 1000⟩], [], [readNotif]⟩

/-- The 400 body the validation middleware produces for a malformed task id
in PUT /api/tasks/:id. -/
def c6ValidationResponse : Response :=
  ⟨400, .jobj [("errors",
    .jarr [validationIssueToJson "id" "Task ID must be a valid MongoDB ObjectId"])]⟩

end TaskManager

namespace TaskManager

/-- C10: the public JSON serialization of a User document (User.toJSON)
contains no password field, no emailVerificationToken field, and no
emailVerificationExpires field, so the user objects embedded in the auth
responses never expose the password hash or the verification token. -/
theorem userToJSON_hides_sensitive_fields (u : UserDoc) :
    "password" ∉ (userToJSON u).map Prod.fst ∧
    "emailVerificationToken" ∉ (userToJSON u).map Prod.fst ∧
    "emailVerificationExpires" ∉ (userToJSON u).map Prod.fst := by
  have h : (userToJSON u).map Prod.fst =
      ["_id", "username", "email", "isAdminCreated", "requiresPasswordSetup",
       "role", "isEmailVerified", "createdAt", "updatedAt"] := rfl
  refine ⟨?_, ?_, ?_⟩ <;> rw [h] <;> decide

/-- C8: the persisted reminder priority is exactly the spec's three-branch
rule of hoursUntilDue at emission time — high below 24 hours, medium from
24 to under 48 hours, low otherwise — and a reminder emitted with 59
minutes remaining has priority high. -/
theorem reminder_priority_spec :
    (∀ msUntilDue : Int, reminderPriority msUntilDue = specReminderPriority msUntilDue) ∧
    (∀ (t : Task) (uid : String) (now : Int),
      (mkReminderNotif t uid now).priority = specReminderPriority (t.dueDate - now)) ∧
    reminderPriority (59 * 60000) = .high := by
  have hall : ∀ msUntilDue : Int,
      reminderPriority msUntilDue = specReminderPriority msUntilDue := by
    intro ms
    unfold reminderPriority specReminderPriority
    split_ifs with h1 h2 h3 h4 h5 <;> first | rfl | omega
  exact ⟨hall, fun t uid now => hall (t.dueDate - now), by decide⟩

/-- C6: refuted on the code — the validation middleware's failure response
for a malformed identifier is a 400 whose body has an `errors` array and no
`error` string field, contradicting the stable error shape the claim (and
the repository's API documentation) states. -/
theorem validation_error_body_shape_bug :
    handleValidationErrors
        [("id", "Task ID must be a valid MongoDB ObjectId")] =
      some c6ValidationResponse ∧
    c6ValidationResponse.status = 400 ∧
    c6ValidationResponse.hasErrorString = false :=
  ⟨rfl, rfl, rfl⟩

/-- C1: refuted on the code — a caller with role `user` who supplies the
optional assignedTo filter overwrites the role-based visibility constraint:
alice (role user, id u1) lists tasks with assignedTo=u2 and receives bob's
task, whose assignedTo is not alice's id. -/
theorem getTasks_user_assignedTo_override_bug :
    (getTasks aliceIdent c1Filters c1Db).tasks = [taskForBob] ∧
    aliceIdent.role = .user ∧
    taskForBob.assignedTo ≠ some aliceIdent.id := by
  refine ⟨?_, rfl, by decide⟩
  rfl

/-- C2, refutation: the resend-verification responses do distinguish a
non-existent email from an existing one — for the same input email, a
database without that account answers 200 while one holding a verified
account with it answers 400, so the response is not a generic success
independent of account existence. -/
theorem resendVerification_distinguishes_existing :
    (resendVerificationEmail "freshTok" 24 true 0 c2DbAbsent
        (some "bob@example.com")).1.status = 200 ∧
    (resendVerificationEmail "freshTok" 24 true 0 c2DbVerified
        (some "bob@example.com")).1.status = 400 :=
  ⟨rfl, rfl⟩

/-- C2, amended: when no account has the email, the response is the generic
200 success and nothing changes; when the email belongs to a verified
account the response is a 400 error (revealing existence); when it belongs
to an unverified account a fresh verification token and expiry are stored
for that user. -/
theorem resendVerification_amended (freshTok : String) (hours : Int)
    (sendOk : Bool) (now : Int) (db : Db) (email : String)
    (hne : email ≠ "") :
    (db.users.find? (fun u => u.email == email) = none →
      resendVerificationEmail freshTok hours sendOk now db (some email) =
        (⟨200, .jobj [("message", .jstr resendGenericMsg)]⟩, db)) ∧
    (∀ u, db.users.find? (fun v => v.email == email) = some u →
      u.isEmailVerified = true →
      resendVerificationEmail freshTok hours sendOk now db (some email) =
        (⟨400, .jobj [("error", .jstr "Email is already verified")]⟩, db)) ∧
    (∀ u, db.users.find? (fun v => v.email == email) = some u →
      u.isEmailVerified = false →
      (resendVerificationEmail freshTok hours sendOk now db (some email)).2.users =
        updateFirst (fun v => v.email == email)
          { u with emailVerificationToken := some freshTok,
                   emailVerificationExpires := some (now + hours * 3600000) }
          db.users) := by
  refine ⟨?_, ?_, ?_⟩
  · intro hfind
    simp [resendVerificationEmail, hne, hfind]
  · intro u hfind hver
    simp [resendVerificationEmail, hne, hfind, hver]
  · intro u hfind hver
    cases sendOk <;> simp [resendVerificationEmail, hne, hfind, hver]

/-- C2, witness for the amended statement at concrete databases: absent
email gives the generic success unchanged; a verified account gives the
400; carol's unverified account gets the fresh token and expiry stored. -/
theorem resendVerification_amended_witness :
    (resendVerificationEmail "fTok" 24 true 0 c2DbAbsent
        (some "bob@example.com") =
      (⟨200, .jobj [("message", .jstr resendGenericMsg)]⟩, c2DbAbsent)) ∧
    (resendVerificationEmail "fTok" 24 true 0 c2DbVerified
        (some "bob@example.com") =
      (⟨400, .jobj [("error", .jstr "Email is already verified")]⟩,
       c2DbVerified)) ∧
    ((resendVerificationEmail "fTok" 24 true 0 c2DbUnverified
        (some "carol@example.com")).2.users =
      updateFirst (fun v => v.email == "carol@example.com")
        { carolUnverified with
            emailVerificationToken := some "fTok",
            emailVerificationExpires := some (0 + 24 * 3600000) }
        c2DbUnverified.users) :=
  ⟨(resendVerification_amended "fTok" 24 true 0 c2DbAbsent "bob@example.com"
      (by decide)).1 rfl,
   (resendVerification_amended "fTok" 24 true 0 c2DbVerified "bob@example.com"
      (by decide)).2.1 bobUser rfl rfl,
   (resendVerification_amended "fTok" 24 true 0 c2DbUnverified "carol@example.com"
      (by decide)).2.2 carolUnverified rfl rfl⟩

/-- Helper: success of `authenticate` characterized by the header shape,
the jwt check, a live session row, and an existing user. -/
theorem authenticate_ok_iff (verify : String → JwtCheck) (now : Int)
    (db : Db) (hdr : Option String) :
    (∃ ident, authenticate verify now db hdr = .ok ident) ↔
    (∃ h, hdr = some h ∧ strStartsWith h "Bearer " = true ∧
      ∃ uid role, verify (strDrop h 7) = .ok uid role ∧
        (∃ s ∈ db.sessions, s.token = strDrop h 7 ∧ now < s.expiresAt) ∧
        (∃ u ∈ db.users, u.id = uid)) := by
  constructor
  · rintro ⟨ident, hok⟩
    match hh : hdr with
    | none => simp [authenticate] at hok
    | some h =>
      by_cases hst : strStartsWith h "Bearer " = true
      · match hv : verify (strDrop h 7) with
        | .malformed => simp [authenticate, hst, hv] at hok
        | .expired => simp [authenticate, hst, hv] at hok
        | .ok uid role =>
          match hs : db.sessions.find?
              (fun s => s.token == strDrop h 7 && now < s.expiresAt) with
          | none => simp [authenticate, hst, hv, hs] at hok
          | some s =>
            match hu : db.users.find? (fun u => u.id == uid) with
            | none => simp [authenticate, hst, hv, hs, hu] at hok
            | some u =>
              have hsmem := List.mem_of_find?_eq_some hs
              have hsp := List.find?_some hs
              have hump := List.find?_some hu
              have humem := List.mem_of_find?_eq_some hu
              simp only [Bool.and_eq_true, beq_iff_eq, decide_eq_true_eq] at hsp hump
              exact ⟨h, rfl, hst, uid, role, hv,
                ⟨s, hsmem, hsp.1, hsp.2⟩, ⟨u, humem, hump⟩⟩
      · simp [authenticate, hst] at hok
  · rintro ⟨h, rfl, hst, uid, role, hv, ⟨s, hsmem, hstok, hsexp⟩, ⟨u, humem, huid⟩⟩
    have hsome : (db.sessions.find?
        (fun s => s.token == strDrop h 7 && now < s.expiresAt)).isSome := by
      rw [List.find?_isSome]
      exact ⟨s, hsmem, by simp [hstok, hsexp]⟩
    obtain ⟨s', hs'⟩ := Option.isSome_iff_exists.mp hsome
    have husome : (db.users.find? (fun v => v.id == uid)).isSome := by
      rw [List.find?_isSome]
      exact ⟨u, humem, by simp [huid]⟩
    obtain ⟨u', hu'⟩ := Option.isSome_iff_exists.mp husome
    refine ⟨⟨u'.id, u'.username, u'.email, u'.role⟩, ?_⟩
    simp [authenticate, hst, hv, hs', hu']

/-- C3: a bearer token authenticates exactly when it verifies
cryptographically, a Session row with that exact token and expiry strictly
in the future exists, and the referenced user exists; deleting the Session
rows with that token makes authenticate fail even though the token still
verifies.  `authenticate` only reads the database (its result carries no
updated state). -/
theorem authenticate_session_source_of_truth (verify : String → JwtCheck)
    (now : Int) (db : Db) (hdr : Option String) :
    ((∃ ident, authenticate verify now db hdr = .ok ident) ↔
      (∃ h, hdr = some h ∧ strStartsWith h "Bearer " = true ∧
        ∃ uid role, verify (strDrop h 7) = .ok uid role ∧
          (∃ s ∈ db.sessions, s.token = strDrop h 7 ∧ now < s.expiresAt) ∧
          (∃ u ∈ db.users, u.id = uid))) ∧
    (∀ h, hdr = some h → ∀ ident,
      authenticate verify now
        { db with sessions :=
            db.sessions.filter (fun s => !(s.token == strDrop h 7)) }
        hdr ≠ .ok ident) := by
  refine ⟨authenticate_ok_iff verify now db hdr, ?_⟩
  rintro h rfl ident hok
  have := (authenticate_ok_iff verify now
    { db with sessions :=
        db.sessions.filter (fun s => !(s.token == strDrop h 7)) }
    (some h)).mp ⟨ident, hok⟩
  obtain ⟨h', hh', _, _, _, _, ⟨s, hsmem, hstok, _⟩, _⟩ := this
  obtain rfl : h' = h := (Option.some.inj hh').symm
  have hsf := List.mem_filter.mp hsmem
  simp only [Bool.not_eq_true', beq_eq_false_iff_ne] at hsf
  exact hsf.2 hstok

/-- C3, witness: with the session row for tokA deleted, the
still-cryptographically-valid bearer token tokA no longer authenticates. -/
theorem authenticate_session_deleted_witness :
    authenticate jwtFix 0
      { c3Db with sessions :=
          c3Db.sessions.filter (fun s => !(s.token == strDrop "Bearer tokA" 7)) }
      (some "Bearer tokA") ≠ .ok aliceIdent :=
  (authenticate_session_source_of_truth jwtFix 0 c3Db
    (some "Bearer tokA")).2 "Bearer tokA" rfl aliceIdent

/-- Helper: a map whose function fixes every member is the identity. -/
theorem map_eq_self_of_fixes {α : Type} (f : α → α) :
    ∀ l : List α, (∀ a ∈ l, f a = a) → l.map f = l := by
  intro l
  induction l with
  | nil => intro _; rfl
  | cons a tl ih =>
    intro h
    rw [List.map_cons, h a (List.mem_cons_self a tl),
      ih (fun b hb => h b (List.mem_cons_of_mem a hb))]

/-- Helper: when at most one element satisfies `p`, nothing in
`l.eraseP p` still satisfies `p`. -/
theorem eraseP_no_match {α : Type} (p : α → Bool) :
    ∀ l : List α, (l.filter p).length ≤ 1 → ∀ x ∈ l.eraseP p, ¬ p x = true := by
  intro l
  induction l with
  | nil => simp
  | cons a tl ih =>
    intro hlen x hx
    rw [List.eraseP_cons] at hx
    by_cases hpa : p a = true
    · rw [hpa, cond_true] at hx
      rw [List.filter_cons_of_pos hpa] at hlen
      simp only [List.length_cons] at hlen
      have hnil : tl.filter p = [] := List.length_eq_zero.mp (by omega)
      exact (List.filter_eq_nil_iff.mp hnil) x hx
    · rw [Bool.not_eq_true] at hpa
      rw [hpa, cond_false] at hx
      rcases List.mem_cons.mp hx with rfl | hx'
      · simp [hpa]
      · rw [List.filter_cons_of_neg (by simp [hpa])] at hlen
        exact ih hlen x hx'

/-- C9: logout is idempotent — with the session store holding at most one
row per token (the unique token index), a second logout for the same token
still answers 200 and leaves the store unchanged — and markAllAsRead with
zero unread notifications for the user reports updatedCount = 0 and changes
nothing. -/
theorem logout_and_markAllAsRead_idempotent :
    (∀ (db : Db) (tok : String),
      (db.sessions.filter (fun s => s.token == tok)).length ≤ 1 →
      (logout (logout db tok).2 tok).1.status = 200 ∧
      (logout (logout db tok).2 tok).2 = (logout db tok).2) ∧
    (∀ (db : Db) (uid : String) (now : Int),
      (db.notifications.filter
        (fun n => n.userId == uid && n.isRead == false)).length = 0 →
      (markAllAsRead uid now db).1.updatedCount = 0 ∧
      (markAllAsRead uid now db).2 = db) := by
  constructor
  · intro db tok hlen
    refine ⟨rfl, ?_⟩
    have hnone := eraseP_no_match (fun s => s.token == tok) db.sessions hlen
    simp only [logout]
    rw [List.eraseP_of_forall_not hnone]
  · intro db uid now hlen
    have hnil : db.notifications.filter
        (fun n => n.userId == uid && n.isRead == false) = [] :=
      List.length_eq_zero.mp hlen
    have hnot := List.filter_eq_nil_iff.mp hnil
    refine ⟨hlen, ?_⟩
    simp only [markAllAsRead]
    have hmap := map_eq_self_of_fixes
      (fun n => if n.userId == uid && n.isRead == false then
        { n with isRead := true, readAt := some now } else n)
      db.notifications
      (fun n hn => by beta_reduce; rw [if_neg (hnot n hn)])
    rw [hmap]

/-- C9, witness: in the fixture store (one session for tokA, one already
read notification for u1) a double logout answers 200 and is a no-op the
second time, and markAllAsRead reports zero updates and changes nothing. -/
theorem logout_and_markAllAsRead_witness :
    ((logout (logout c9Db "tokA").2 "tokA").1.status = 200 ∧
     (logout (logout c9Db "tokA").2 "tokA").2 = (logout c9Db "tokA").2) ∧
    ((markAllAsRead "u1" 77 c9Db).1.updatedCount = 0 ∧
     (markAllAsRead "u1" 77 c9Db).2 = c9Db) :=
  ⟨(logout_and_markAllAsRead_idempotent.1 c9Db "tokA" (by decide)),
   (logout_and_markAllAsRead_idempotent.2 c9Db "u1" 77 (by decide))⟩

/-- C7: with correct credentials and an unverified email, login fails with
the EmailNotVerified response (the 403 carrying requiresVerification) iff
the account is not admin-provisioned; an unverified admin-created account
logs in, appending a session row. -/
theorem login_unverified_admin_provisioned (mint : String → Role → String)
    (bcryptEq : String → String → Bool) (expiresInMs now : Int) (db : Db)
    (uname pwd : String) (u : UserDoc)
    (hfind : db.users.find? (fun v => v.username == uname) = some u)
    (hbc : bcryptEq pwd u.password = true)
    (hver : u.isEmailVerified = false) :
    (u.isAdminCreated = false →
      login mint bcryptEq expiresInMs now db uname pwd =
        (⟨403, .jobj [("error", .jstr emailNotVerifiedMsg),
                      ("requiresVerification", .jbool true)]⟩, db)) ∧
    (u.isAdminCreated = true →
      login mint bcryptEq expiresInMs now db uname pwd =
        (⟨200, .jobj [("message", .jstr "Login successful"),
                      ("token", .jstr (mint u.id u.role)),
                      ("user", .jobj [("id", .jstr u.id),
                                      ("username", .jstr u.username),
                                      ("email", .jstr u.email),
                                      ("role", .jstr (roleName u.role))])]⟩,
         { db with sessions :=
             db.sessions ++ [⟨u.id, mint u.id u.role, now + expiresInMs⟩] })) := by
  constructor
  · intro hadmin
    simp [login, hfind, hbc, hver, hadmin]
  · intro hadmin
    simp [login, hfind, hbc, hver, hadmin]

/-- C7, witness: carol (self-registered, unverified) is refused with the
requiresVerification response; david (admin-created, unverified) logs in
and his session is stored. -/
theorem login_unverified_witness :
    (login mintFix bcryptFix 1000 0 c7Db "carol" "pwC" =
      (⟨403, .jobj [("error", .jstr emailNotVerifiedMsg),
                    ("requiresVerification", .jbool true)]⟩, c7Db)) ∧
    (login mintFix bcryptFix 1000 0 c7Db "david" "pwD" =
      (⟨200, .jobj [("message", .jstr "Login successful"),
                    ("token", .jstr (mintFix "u4" .manager)),
                    ("user", .jobj [("id", .jstr "u4"),
                                    ("username", .jstr "david"),
                                    ("email", .jstr "david@example.com"),
                                    ("role", .jstr (roleName .manager))])]⟩,
       { c7Db with sessions := c7Db.sessions ++ [⟨"u4", mintFix "u4" .manager, 0 + 1000⟩] })) :=
  ⟨(login_unverified_admin_provisioned mintFix bcryptFix 1000 0 c7Db
      "carol" "pwC" carolUnverified rfl rfl rfl).1 rfl,
   (login_unverified_admin_provisioned mintFix bcryptFix 1000 0 c7Db
      "david" "pwD" davidAdminCreated rfl rfl rfl).2 rfl⟩

/-- Helper: lookup misses when every key differs from the probe. -/
theorem lookup_eq_none_of_keys_ne {β : Type} (a : String) :
    ∀ l : List (String × β), (∀ k ∈ l.map Prod.fst, k ≠ a) →
    l.lookup a = none := by
  intro l
  induction l with
  | nil => simp
  | cons kv tl ih =>
    intro h
    have hka : kv.1 ≠ a := h kv.1 (by simp)
    cases kv with
    | mk k v =>
      have hfalse : (a == k) = false := beq_eq_false_iff_ne.mpr (Ne.symm hka)
      simp only [List.lookup, hfalse]
      exact ih (fun k' hk' => h k' (by simp [hk']))

/-- C4: a `user`-role assignee updating a task is rejected with Forbidden,
leaving the database untouched, whenever the patch carries any key other
than `status` (even if a valid `status` is also present), and a patch whose
keys are all `status` succeeds, persisting exactly the patched task. -/
theorem updateTask_user_role_status_only (db : Db) (ident : Identity)
    (tid : String) (patch : Patch) (now : Int) (t : Task)
    (hrole : ident.role = .user)
    (hfind : db.tasks.find? (fun tk => tk.id == tid) = some t)
    (hassigned : t.assignedTo = some ident.id) :
    ((∃ k ∈ patch.map Prod.fst, k ≠ "status") →
      (updateTask ident tid patch now db).1.isForbidden = true ∧
      (updateTask ident tid patch now db).2 = db) ∧
    ((∀ k ∈ patch.map Prod.fst, k = "status") →
      updateTask ident tid patch now db =
        (.ok (appliedPatch t patch now),
         { db with tasks := (updateFirst (fun tk => tk.id == tid)
             (appliedPatch t patch now) db.tasks) })) := by
  constructor
  · rintro ⟨k, hk, hkne⟩
    have hne : (patch.map Prod.fst).filter (fun k => k ∉ ["status"]) ≠ [] := by
      refine List.ne_nil_of_mem (a := k) ?_
      rw [List.mem_filter]
      exact ⟨hk, by simpa using hkne⟩
    simp only [updateTask, hfind, hrole, hassigned]
    rw [if_neg (not_not_intro rfl), if_pos hne]
    exact ⟨rfl, rfl⟩
  · intro hall
    have hnil : (patch.map Prod.fst).filter (fun k => k ∉ ["status"]) = [] := by
      rw [List.filter_eq_nil_iff]
      intro k hk
      simp [hall k hk]
    have hlook : patch.lookup "assignedTo" = none := by
      refine lookup_eq_none_of_keys_ne "assignedTo" patch ?_
      intro k hk
      rw [hall k hk]
      decide
    simp only [updateTask, hfind, hrole, hassigned]
    rw [if_neg (not_not_intro rfl), if_neg (not_not_intro hnil)]
    simp only [patchNewAssignee, hlook]
    rw [if_pos trivial]

/-- Helper: the freshly appended reminder makes the dedup query hit. -/
theorem dedupHit_append_mk (notifs : List Notif) (t : Task) (uid : String)
    (now : Int) :
    dedupHit (notifs ++ [mkReminderNotif t uid now]) t.id uid now = true := by
  unfold dedupHit
  rw [List.any_append]
  have hmk : [mkReminderNotif t uid now].any (fun n =>
      n.taskId == some t.id && n.userId == uid &&
      n.ntype == NotifType.taskReminder &&
      now - 2 * 3600000 ≤ n.createdAt) = true := by
    simp [mkReminderNotif]
  rw [hmk, Bool.or_true]

/-- Helper: once the dedup query hits, the threshold loop adds nothing. -/
theorem foldl_tick_of_dedup (now : Int) (t : Task) (uid : String) :
    ∀ (ths : List Nat) (acc : List Notif),
      dedupHit acc t.id uid now = true →
      ths.foldl (tickTaskThreshold now t uid) acc = acc := by
  intro ths
  induction ths with
  | nil => intro acc _; rfl
  | cons tr ths ih =>
    intro acc hdup
    have hstep : tickTaskThreshold now t uid acc tr = acc := by
      unfold tickTaskThreshold
      by_cases h1 : thresholdWindow now t tr
      · rw [if_pos h1, if_pos hdup]
      · rw [if_neg h1]
    rw [List.foldl_cons, hstep]
    exact ih acc hdup

/-- Helper: with a clean dedup query, the threshold loop appends exactly
one reminder when some threshold's window contains the time left, and
nothing otherwise. -/
theorem foldl_tick_of_no_dedup (now : Int) (t : Task) (uid : String) :
    ∀ (ths : List Nat) (acc : List Notif),
      dedupHit acc t.id uid now = false →
      ths.foldl (tickTaskThreshold now t uid) acc =
        if ∃ tr ∈ ths, thresholdWindow now t tr then
          acc ++ [mkReminderNotif t uid now]
        else acc := by
  intro ths
  induction ths with
  | nil => intro acc _; simp
  | cons tr ths ih =>
    intro acc hdup
    rw [List.foldl_cons]
    by_cases hw : thresholdWindow now t tr
    · have hstep : tickTaskThreshold now t uid acc tr =
          acc ++ [mkReminderNotif t uid now] := by
        unfold tickTaskThreshold
        rw [if_pos hw, if_neg (by simp [hdup])]
      rw [hstep,
        foldl_tick_of_dedup now t uid ths _ (dedupHit_append_mk acc t uid now),
        if_pos ⟨tr, List.mem_cons_self tr ths, hw⟩]
    · have hstep : tickTaskThreshold now t uid acc tr = acc := by
        unfold tickTaskThreshold
        rw [if_neg hw]
      rw [hstep, ih acc hdup]
      by_cases hex : ∃ a ∈ ths, thresholdWindow now t a
      · obtain ⟨a, ha, haw⟩ := hex
        rw [if_pos ⟨a, ha, haw⟩,
          if_pos ⟨a, List.mem_cons_of_mem tr ha, haw⟩]
      · rw [if_neg hex, if_neg ?_]
        rintro ⟨a, ha, haw⟩
        rcases List.mem_cons.mp ha with rfl | ha'
        · exact hw haw
        · exact hex ⟨a, ha', haw⟩

/-- Helper: the seed is below a foldl of max. -/
theorem init_le_foldl_max : ∀ (l : List Nat) (a : Nat), a ≤ l.foldl max a := by
  intro l
  induction l with
  | nil => intro a; exact Nat.le_refl a
  | cons b l ih =>
    intro a
    exact le_trans (Nat.le_max_left a b) (ih (max a b))

/-- Helper: every member is below a foldl of max. -/
theorem mem_le_foldl_max :
    ∀ (l : List Nat) (a x : Nat), x ∈ l → x ≤ l.foldl max a := by
  intro l
  induction l with
  | nil => intro a x hx; simp at hx
  | cons b l ih =>
    intro a x hx
    rcases List.mem_cons.mp hx with rfl | hx'
    · exact le_trans (Nat.le_max_right a x) (init_le_foldl_max l (max a x))
    · exact ih (max a b) x hx'

/-- Helper: no reminder for this task is stamped at this instant when no
source notification matches. -/
theorem countRemindersAt_zero_of (l : List Notif) (tid : String) (time : Int)
    (h : ∀ n ∈ l, ¬(n.ntype = NotifType.taskReminder ∧
      n.taskId = some tid ∧ n.createdAt = time)) :
    countRemindersAt l tid time = 0 := by
  unfold countRemindersAt
  rw [List.length_eq_zero, List.filter_eq_nil_iff]
  intro n hn
  simp only [Bool.and_eq_true, beq_iff_eq]
  rintro ⟨⟨h1, h2⟩, h3⟩
  exact h n hn ⟨h1, h2, h3⟩

/-- Helper: the per-instant reminder count distributes over append. -/
theorem countRemindersAt_append (a b : List Notif) (tid : String)
    (time : Int) :
    countRemindersAt (a ++ b) tid time =
      countRemindersAt a tid time + countRemindersAt b tid time := by
  simp [countRemindersAt, List.filter_append]

/-- Helper: a tick on a single-task store that passes the upcoming query
runs the threshold loop on that task, then the retention sweep. -/
theorem checkUpcomingTasks_single_pass (ths : List Nat) (now : Int)
    (us : List UserDoc) (ss : List Session) (t : Task) (notifs : List Notif)
    (hq : upcomingQuery (((ths.foldl max 0 : Nat) : Int) * 3600000) now t = true) :
    checkUpcomingTasks ths now ⟨us, ss, [t], notifs⟩ =
      ⟨us, ss, [t], (tickTask ths now notifs t).filter
        (fun n => !(n.isRead && n.createdAt < now - 30 * 24 * 3600000))⟩ := by
  simp only [checkUpcomingTasks]
  rw [show List.filter (upcomingQuery (((ths.foldl max 0 : Nat) : Int) * 3600000) now)
      [t] = [t] from by simp [hq]]
  rfl

/-- Helper: a tick on a single-task store that fails the upcoming query
only runs the retention sweep. -/
theorem checkUpcomingTasks_single_skip (ths : List Nat) (now : Int)
    (us : List UserDoc) (ss : List Session) (t : Task) (notifs : List Notif)
    (hq : upcomingQuery (((ths.foldl max 0 : Nat) : Int) * 3600000) now t = false) :
    checkUpcomingTasks ths now ⟨us, ss, [t], notifs⟩ =
      ⟨us, ss, [t], notifs.filter
        (fun n => !(n.isRead && n.createdAt < now - 30 * 24 * 3600000))⟩ := by
  simp only [checkUpcomingTasks]
  rw [show List.filter (upcomingQuery (((ths.foldl max 0 : Nat) : Int) * 3600000) now)
      [t] = [] from by simp [hq]]
  rfl

/-- C5: one tick over a single assigned, non-completed, non-cancelled task
stamps a new task_reminder at the tick instant exactly when some configured
threshold T satisfies T−1 < hoursUntilDue ≤ T and the 2-hour dedup query
finds nothing; consequently a task inside the 24-hour window (due in 23
hours and change) produces exactly one task_reminder across two ticks run
within the same hour with thresholds 48, 24, 1. -/
theorem reminder_window_dedup :
    (∀ (us : List UserDoc) (ss : List Session) (t : Task) (uid : String)
        (thresholds : List Nat) (now : Int) (notifs : List Notif),
      t.assignedTo = some uid →
      t.status ≠ .completed → t.status ≠ .cancelled →
      (∀ tr ∈ thresholds, 1 ≤ tr) →
      (∀ n ∈ notifs, ¬(n.ntype = NotifType.taskReminder ∧
        n.taskId = some t.id ∧ n.createdAt = now)) →
      countRemindersAt
          ((checkUpcomingTasks thresholds now ⟨us, ss, [t], notifs⟩).notifications)
          t.id now =
        if specEmits thresholds now t uid notifs then 1 else 0) ∧
    (∀ (us : List UserDoc) (ss : List Session) (t : Task) (uid : String)
        (now0 d : Int),
      t.assignedTo = some uid →
      t.status ≠ .completed → t.status ≠ .cancelled →
      23 * 3600000 < t.dueDate - now0 →
      t.dueDate - now0 ≤ 24 * 3600000 →
      0 ≤ d → d ≤ 3600000 →
      countReminders
          ((checkUpcomingTasks [48, 24, 1] (now0 + d)
            (checkUpcomingTasks [48, 24, 1] now0 ⟨us, ss, [t], []⟩)).notifications)
          t.id uid = 1) := by
  constructor
  · intro us ss t uid ths now notifs hass hc hx hpos hfresh
    by_cases hq : upcomingQuery (((ths.foldl max 0 : Nat) : Int) * 3600000) now t = true
    · rw [checkUpcomingTasks_single_pass ths now us ss t notifs hq]
      simp only [tickTask, hass]
      by_cases hdup : dedupHit notifs t.id uid now = true
      · have hnspec : ¬ specEmits ths now t uid notifs := by
          intro hspec
          unfold specEmits at hspec
          rw [hspec.2] at hdup
          exact Bool.false_ne_true hdup
        rw [foldl_tick_of_dedup now t uid ths notifs hdup, if_neg hnspec]
        exact countRemindersAt_zero_of _ _ _
          (fun n hn => hfresh n (List.mem_filter.mp hn).1)
      · have hdup' : dedupHit notifs t.id uid now = false := by
          rwa [Bool.not_eq_true] at hdup
        rw [foldl_tick_of_no_dedup now t uid ths notifs hdup']
        by_cases hex : ∃ tr ∈ ths, thresholdWindow now t tr
        · have hspec : specEmits ths now t uid notifs := by
            unfold specEmits
            exact ⟨hex, hdup'⟩
          rw [if_pos hex, if_pos hspec, List.filter_append,
            countRemindersAt_append,
            countRemindersAt_zero_of _ _ _
              (fun n hn => hfresh n (List.mem_filter.mp hn).1)]
          simp [countRemindersAt, mkReminderNotif]
        · have hnspec : ¬ specEmits ths now t uid notifs := by
            intro hspec
            unfold specEmits at hspec
            exact hex hspec.1
          rw [if_neg hex, if_neg hnspec]
          exact countRemindersAt_zero_of _ _ _
            (fun n hn => hfresh n (List.mem_filter.mp hn).1)
    · have hq' : upcomingQuery (((ths.foldl max 0 : Nat) : Int) * 3600000) now t
          = false := by
        rwa [Bool.not_eq_true] at hq
      have hnspec : ¬ specEmits ths now t uid notifs := by
        intro hspec
        unfold specEmits at hspec
        obtain ⟨⟨tr, htr, hw⟩, -⟩ := hspec
        have hw' := hw
        unfold thresholdWindow at hw'
        obtain ⟨hwa, hwb⟩ := hw'
        have h1 : (1 : Int) ≤ (tr : Int) := by exact_mod_cast hpos tr htr
        have h2 : (tr : Int) ≤ ((ths.foldl max 0 : Nat) : Int) := by
          exact_mod_cast mem_le_foldl_max ths 0 tr htr
        have hs1 : (t.status == Status.completed) = false :=
          beq_eq_false_iff_ne.mpr hc
        have hs2 : (t.status == Status.cancelled) = false :=
          beq_eq_false_iff_ne.mpr hx
        have hquery : upcomingQuery (((ths.foldl max 0 : Nat) : Int) * 3600000)
            now t = true := by
          unfold upcomingQuery
          rw [Bool.and_eq_true, Bool.and_eq_true, Bool.and_eq_true]
          refine ⟨⟨⟨?_, ?_⟩, ?_⟩, ?_⟩
          · exact decide_eq_true (by omega)
          · exact decide_eq_true (by omega)
          · rw [hs1, hs2]
            rfl
          · exact decide_eq_true (by simp [hass])
        rw [hq'] at hquery
        exact Bool.false_ne_true hquery
      rw [checkUpcomingTasks_single_skip ths now us ss t notifs hq',
        if_neg hnspec]
      exact countRemindersAt_zero_of _ _ _
        (fun n hn => hfresh n (List.mem_filter.mp hn).1)
  · intro us ss t uid now0 d hass hc hx hlo hhi hd0 hd1
    have hs1 : (t.status == Status.completed) = false :=
      beq_eq_false_iff_ne.mpr hc
    have hs2 : (t.status == Status.cancelled) = false :=
      beq_eq_false_iff_ne.mpr hx
    have hcast : ((([48, 24, 1].foldl max 0 : Nat) : Int) * 3600000) =
        172800000 := by norm_num [List.foldl]
    have hq1 : upcomingQuery ((([48, 24, 1].foldl max 0 : Nat) : Int) * 3600000)
        now0 t = true := by
      rw [hcast]
      unfold upcomingQuery
      rw [Bool.and_eq_true, Bool.and_eq_true, Bool.and_eq_true]
      refine ⟨⟨⟨?_, ?_⟩, ?_⟩, ?_⟩
      · exact decide_eq_true (by omega)
      · exact decide_eq_true (by omega)
      · rw [hs1, hs2]
        rfl
      · exact decide_eq_true (by simp [hass])
    have hex1 : ∃ tr ∈ [48, 24, 1], thresholdWindow now0 t tr := by
      refine ⟨24, by decide, ?_⟩
      unfold thresholdWindow
      constructor
      · push_cast
        omega
      · push_cast
        omega
    rw [checkUpcomingTasks_single_pass [48, 24, 1] now0 us ss t [] hq1]
    have hinner : (tickTask [48, 24, 1] now0 [] t).filter
        (fun n => !(n.isRead && n.createdAt < now0 - 30 * 24 * 3600000)) =
        [mkReminderNotif t uid now0] := by
      simp only [tickTask, hass]
      rw [foldl_tick_of_no_dedup now0 t uid [48, 24, 1] [] rfl, if_pos hex1,
        List.nil_append]
      simp [mkReminderNotif]
    rw [hinner]
    have hq2 : upcomingQuery ((([48, 24, 1].foldl max 0 : Nat) : Int) * 3600000)
        (now0 + d) t = true := by
      rw [hcast]
      unfold upcomingQuery
      rw [Bool.and_eq_true, Bool.and_eq_true, Bool.and_eq_true]
      refine ⟨⟨⟨?_, ?_⟩, ?_⟩, ?_⟩
      · exact decide_eq_true (by omega)
      · exact decide_eq_true (by omega)
      · rw [hs1, hs2]
        rfl
      · exact decide_eq_true (by simp [hass])
    rw [checkUpcomingTasks_single_pass [48, 24, 1] (now0 + d) us ss t
      [mkReminderNotif t uid now0] hq2]
    have hdup2 : dedupHit [mkReminderNotif t uid now0] t.id uid (now0 + d)
        = true := by
      unfold dedupHit
      simp [mkReminderNotif]
      omega
    simp only [tickTask, hass]
    rw [foldl_tick_of_dedup (now0 + d) t uid [48, 24, 1] _ hdup2]
    simp [countReminders, mkReminderNotif]

/-- C5, witness: for the fixture task due at 23.5 hours, a tick at time 0
emits exactly one reminder (the window/dedup condition holds), and a second
tick 30 minutes later leaves the total at exactly one. -/
theorem reminder_window_dedup_witness :
    (countRemindersAt
        ((checkUpcomingTasks [48, 24, 1] 0 c5Db).notifications) "t5" 0 =
      if specEmits [48, 24, 1] 0 taskDue23h30 "u2" [] then 1 else 0) ∧
    (countReminders
        ((checkUpcomingTasks [48, 24, 1] (0 + 1800000)
          (checkUpcomingTasks [48, 24, 1] 0 c5Db)).notifications) "t5" "u2" = 1) :=
  ⟨reminder_window_dedup.1 [bobUser] [] taskDue23h30 "u2" [48, 24, 1] 0 []
      rfl (by decide) (by decide) (by decide) (by simp),
   reminder_window_dedup.2 [bobUser] [] taskDue23h30 "u2" 0 1800000
      rfl (by decide) (by decide) (by decide) (by decide) (by decide) (by decide)⟩

/-- C4, witness: alice (role user, assignee of t2) is refused when patching
title alongside status, with the store unchanged, and succeeds when
patching status alone. -/
theorem updateTask_user_role_witness :
    ((updateTask aliceIdent "t2" titleAndStatusPatch 500 c4Db).1.isForbidden = true ∧
     (updateTask aliceIdent "t2" titleAndStatusPatch 500 c4Db).2 = c4Db) ∧
    (updateTask aliceIdent "t2" statusOnlyPatch 500 c4Db =
      (.ok (appliedPatch taskForAlice statusOnlyPatch 500),
       { c4Db with tasks := (updateFirst (fun tk => tk.id == "t2")
           (appliedPatch taskForAlice statusOnlyPatch 500) c4Db.tasks) })) :=
  ⟨(updateTask_user_role_status_only c4Db aliceIdent "t2" titleAndStatusPatch
      500 taskForAlice rfl rfl rfl).1 ⟨"title", by decide, by decide⟩,
   (updateTask_user_role_status_only c4Db aliceIdent "t2" statusOnlyPatch
      500 taskForAlice rfl rfl rfl).2 (by decide)⟩

end TaskManager
